import Mathlib

/-!
Shallow embedding of the AI provider adapter layer of a multi-provider chat
application (TypeScript source: `api/services/*.ts`, `api/routes/chat.ts`).
Vendor HTTP transports are modelled as explicit oracles (values or functions
passed to each operation); JavaScript falsy-default idioms (`x || d`) are
modelled by explicit helpers.  The repository ships two revisions of the
service manager; both `validateConfig` revisions are embedded
(`AIServiceManagerV1` is the earlier one).
-/

/-- Message roles (types.ts, `MessageRole`). -/
inductive MessageRole
  | system
  | user
  | assistant
deriving DecidableEq, Repr

/-- Abstract chat message (types.ts, `ChatMessage`). -/
structure ChatMessage where
  role : MessageRole
  content : String
deriving DecidableEq, Repr

/-- Service configuration (types.ts, `AIServiceConfig`).  Optional numeric
fields are `Option` (TypeScript `undefined` is `none`). -/
structure AIServiceConfig where
  provider : String
  apiKey : String
  baseUrl : Option String
  model : String
  temperature : Option ℚ
  maxTokens : Option Int
  topP : Option ℚ
  frequencyPenalty : Option ℚ
  presencePenalty : Option ℚ
  stop : Option (List String)
  previousResponseId : Option String
  store : Option Bool
deriving DecidableEq, Repr

/-- JavaScript `x || d` on an optional number: `undefined` and `0` are falsy. -/
def jsOrRat : Option ℚ → ℚ → ℚ
  | none, d => d
  | some x, d => if x = 0 then d else x

/-- JavaScript `x || d` on an optional integer: `undefined` and `0` are falsy. -/
def jsOrInt : Option Int → Int → Int
  | none, d => d
  | some x, d => if x = 0 then d else x

/-- JavaScript `s || d` on a string: the empty string is falsy. -/
def jsOrStr (s d : String) : String :=
  if s = "" then d else s

/-- JavaScript `s || undefined` on an optional string. -/
def jsOrUndef : Option String → Option String
  | none => none
  | some s => if s = "" then none else some s

/-- JavaScript truthiness of an optional string. -/
def jsTruthyStr : Option String → Bool
  | none => false
  | some s => !(s == "")

/-- JavaScript `String.prototype.includes` via `splitOn`. -/
def strIncludes (s pat : String) : Bool :=
  (s.splitOn pat).length != 1

/-- Error class `AIServiceError` (types.ts); the constructor sets
`this.name = "AIServiceError"`. -/
structure AIServiceError where
  name : String
  message : String
  provider : String
  statusCode : Option Nat
deriving DecidableEq, Repr

/-- Construct an `AIServiceError` the way `new AIServiceError(...)` does. -/
def mkAIServiceError (message provider : String) (statusCode : Option Nat) : AIServiceError :=
  { name := "AIServiceError", message := message, provider := provider, statusCode := statusCode }

/-- Error raised by a vendor SDK call or `fetch` (shape of the caught value). -/
structure VendorError where
  message : String
  status : Option Nat
  code : Option String
  param : Option String
deriving DecidableEq, Repr

/-- Token usage normalized by adapters (types.ts, `AIResponse.usage`). -/
structure Usage where
  promptTokens : Int
  completionTokens : Int
  totalTokens : Int
deriving DecidableEq, Repr

/-- Normalized unary chat result (types.ts, `AIResponse`). -/
structure AIResponse where
  content : String
  model : String
  provider : String
  usage : Option Usage
  responseId : Option String
deriving DecidableEq, Repr

/-- Streaming chunk (types.ts, `StreamResponse`). -/
structure StreamResponse where
  content : String
  done : Bool
  model : String
  provider : String
deriving DecidableEq, Repr

/-- Model descriptor returned by `getAvailableModels`. -/
structure ModelInfo where
  id : String
  name : String
deriving DecidableEq, Repr

/-- Result of `validateConfig`. -/
structure ValidationResult where
  valid : Bool
  errors : List String
deriving DecidableEq, Repr

/-- Error-list fragment for a ranged optional rational parameter:
`v !== undefined && (v < lo || v > hi)` pushes `msg`. -/
def rangeErr (v : Option ℚ) (lo hi : ℚ) (msg : String) : List String :=
  match v with
  | none => []
  | some t => if t < lo ∨ t > hi then [msg] else []

/-- Error-list fragment for `maxTokens !== undefined && (maxTokens <= 0 || maxTokens > hi)`. -/
def tokenErr (v : Option Int) (hi : Int) (msg : String) : List String :=
  match v with
  | none => []
  | some t => if t ≤ 0 ∨ t > hi then [msg] else []

/-- Error-list fragment for `maxTokens !== undefined && maxTokens <= 0` (no upper bound). -/
def tokenErrLower (v : Option Int) (msg : String) : List String :=
  match v with
  | none => []
  | some t => if t ≤ 0 then [msg] else []

namespace AIServiceManager

/-- Providers registered by the constructor (`adapters.set` calls). -/
def registeredProviders : List String :=
  ["openai", "openai-responses", "claude", "gemini", "xai", "ollama", "qwen"]

/-- Providers whose `validateConfig` case demands a non-empty `apiKey`
(second revision of `ai-service-manager.ts`). -/
def credentialProviders : List String :=
  ["openai", "openai-responses", "claude", "gemini", "xai"]

/-- validateConfig, second revision (per-provider parameter ranges). -/
def validateConfig (provider : String) (config : AIServiceConfig) : ValidationResult :=
  let base := if config.model = "" then ["模型名称不能为空"] else []
  let provErrs :=
    if provider = "openai" ∨ provider = "openai-responses" then
      (if config.apiKey = "" then ["API Key不能为空"] else []) ++
      rangeErr config.temperature 0 2 "OpenAI temperature值必须在0.0-2.0之间" ++
      tokenErr config.maxTokens 4096 "OpenAI maxTokens必须在1-4096之间" ++
      rangeErr config.topP 0 1 "OpenAI topP值必须在0.0-1.0之间"
    else if provider = "claude" then
      (if config.apiKey = "" then ["API Key不能为空"] else []) ++
      rangeErr config.temperature 0 1 "Claude temperature值必须在0.0-1.0之间" ++
      tokenErr config.maxTokens 8192 "Claude maxTokens必须在1-8192之间(标准4096,beta时8192)" ++
      rangeErr config.topP 0 1 "Claude topP值必须在0.0-1.0之间" ++
      (match config.temperature, config.topP with
       | some _, some _ => ["Claude不建议同时设置temperature和topP参数，请选择一个使用"]
       | _, _ => [])
    else if provider = "gemini" then
      (if config.apiKey = "" then ["API Key不能为空"] else []) ++
      rangeErr config.temperature 0 2 "Gemini temperature值必须在0.0-2.0之间" ++
      tokenErr config.maxTokens 65536 "Gemini maxOutputTokens必须在1-65536之间" ++
      rangeErr config.topP 0 1 "Gemini topP值必须在0.0-1.0之间"
    else if provider = "xai" then
      (if config.apiKey = "" then ["API Key不能为空"] else []) ++
      rangeErr config.temperature 0 1 "XAI temperature值必须在0.0-1.0之间" ++
      tokenErr config.maxTokens 4096 "XAI maxTokens必须在1-4096之间" ++
      rangeErr config.topP 0 1 "XAI topP值必须在0.0-1.0之间"
    else if provider = "ollama" then
      (if config.baseUrl.getD "" = "" then ["Base URL不能为空"] else []) ++
      rangeErr config.temperature 0 2 "Ollama temperature值必须在0.0-2.0之间" ++
      tokenErrLower config.maxTokens "Ollama maxTokens必须大于0" ++
      rangeErr config.topP 0 1 "Ollama topP值必须在0.0-1.0之间"
    else []
  let errors := base ++ provErrs
  { valid := errors.isEmpty, errors := errors }

end AIServiceManager

namespace AIServiceManagerV1

/-- Providers whose `validateConfig` case demands a non-empty `apiKey`
(first revision of `ai-service-manager.ts`). -/
def credentialProviders : List String :=
  ["openai", "claude", "gemini", "xai", "qwen"]

/-- validateConfig, first revision (generic numeric ranges after the switch). -/
def validateConfig (provider : String) (config : AIServiceConfig) : ValidationResult :=
  let base := if config.model = "" then ["模型名称不能为空"] else []
  let provErrs :=
    if provider = "openai" ∨ provider = "claude" ∨ provider = "gemini" ∨
        provider = "xai" ∨ provider = "qwen" then
      if config.apiKey = "" then ["API Key不能为空"] else []
    else if provider = "ollama" then
      if config.baseUrl.getD "" = "" then ["Base URL不能为空"] else []
    else []
  let numErrs :=
    rangeErr config.temperature 0 2 "温度值必须在0-2之间" ++
    tokenErrLower config.maxTokens "最大令牌数必须大于0"
  let errors := base ++ provErrs ++ numErrs
  { valid := errors.isEmpty, errors := errors }

end AIServiceManagerV1

/-- Abstract view of one registered adapter instance, as the dispatcher sees
it: the `AIServiceAdapter` interface of types.ts, with `streamChat` an
optional member.  Operation outcomes are pre-applied oracles for the call at
hand; the dispatcher forwards calls unchanged, so only outcomes matter. -/
structure AdapterModel where
  hasStreamChat : Bool
  streamOutput : List StreamResponse
  chatOutcome : Except AIServiceError AIResponse
  testConnectionOutcome : Except VendorError Bool
  modelsOutcome : Except AIServiceError (List ModelInfo)
deriving Repr

namespace AIServiceManager

/-- Registry held by the manager: `Map<AIProvider, AIServiceAdapter>` keyed by
provider id string. -/
def Registry : Type := List (String × AdapterModel)

/-- getAdapter: looks the provider up and throws `AIServiceError` when absent. -/
def getAdapter (reg : Registry) (provider : String) : Except AIServiceError AdapterModel :=
  match List.lookup provider reg with
  | some a => .ok a
  | none => .error (mkAIServiceError ("不支持的AI服务提供商: " ++ provider) provider none)

/-- Dispatcher chat.  The second component counts adapter invocations. -/
def chat (reg : Registry) (provider : String) :
    Except AIServiceError AIResponse × Nat :=
  match getAdapter reg provider with
  | .error e => (.error e, 0)
  | .ok a => (a.chatOutcome, 1)

/-- Dispatcher streamChat: throws when the resolved adapter lacks the
optional `streamChat` member.  Second component counts adapter invocations. -/
def streamChat (reg : Registry) (provider : String) :
    Except AIServiceError (List StreamResponse) × Nat :=
  match getAdapter reg provider with
  | .error e => (.error e, 0)
  | .ok a =>
    if a.hasStreamChat then (.ok a.streamOutput, 1)
    else (.error (mkAIServiceError (provider ++ " does not support streaming") provider none), 0)

/-- Dispatcher testConnection: `try { getAdapter; adapter.testConnection } catch { false }`. -/
def testConnection (reg : Registry) (provider : String) : Bool :=
  match getAdapter reg provider with
  | .error _ => false
  | .ok a =>
    match a.testConnectionOutcome with
    | .ok b => b
    | .error _ => false

/-- Dispatcher getAvailableModels: resolves the adapter and forwards. -/
def getAvailableModels (reg : Registry) (provider : String) :
    Except AIServiceError (List ModelInfo) × Nat :=
  match getAdapter reg provider with
  | .error e => (.error e, 0)
  | .ok a => (a.modelsOutcome, 1)

end AIServiceManager

/-- Role vocabulary sent to OpenAI-style vendors (`msg.role` passed through). -/
def roleString : MessageRole → String
  | .system => "system"
  | .user => "user"
  | .assistant => "assistant"

namespace ClaudeAdapter

/-- convertMessages (claude-adapter.ts): partitions out system messages; the
dedicated field takes `systemMessages[0].content` when any exist. -/
def convertMessages (messages : List ChatMessage) : List ChatMessage × Option String :=
  let systemMessages := messages.filter fun m => m.role == .system
  let userMessages := messages.filter fun m => m.role != .system
  (userMessages, systemMessages.head?.map ChatMessage.content)

/-- Request body built by `chat` / `streamChat` (claude-adapter.ts).  Fields
that the code only sets conditionally are `none` when omitted from the body. -/
structure Request where
  model : String
  messages : List ChatMessage
  system : Option String
  max_tokens : Option Int
  temperature : Option ℚ
  top_p : Option ℚ
  stop_sequences : Option (List String)
  stream : Bool
deriving DecidableEq, Repr

/-- Builds the Claude request parameters (`requestParams` / `streamParams`). -/
def buildRequest (messages : List ChatMessage) (config : AIServiceConfig)
    (stream : Bool) : Request :=
  let conv := convertMessages messages
  { model := config.model
    messages := conv.1
    system := jsOrUndef conv.2
    max_tokens := some (jsOrInt config.maxTokens 2000)
    temperature := some (jsOrRat config.temperature 0.7)
    top_p := config.topP
    stop_sequences := config.stop
    stream := stream }

/-- Vendor stream events as the adapter discriminates them. -/
inductive StreamEvent
  | textDelta (text : String)
  | messageStop
  | otherEvent
deriving DecidableEq, Repr

/-- One streaming transport run: the events delivered in order, and an error
the transport raises after them (`none` = the stream simply ends). -/
structure StreamTrace where
  events : List StreamEvent
  midStreamError : Option VendorError
deriving DecidableEq, Repr

/-- The `for await` loop body of `streamChat`: yields a non-final chunk per
text delta and a final chunk plus `break` at `message_stop`.  The Boolean
records whether the loop broke at a `message_stop` event. -/
def streamBody (config : AIServiceConfig) : List StreamEvent → List StreamResponse × Bool
  | [] => ([], false)
  | .textDelta t :: rest =>
    let r := streamBody config rest
    ({ content := t, done := false, model := config.model, provider := "claude" } :: r.1, r.2)
  | .messageStop :: _ =>
    ([{ content := "", done := true, model := config.model, provider := "claude" }], true)
  | .otherEvent :: rest => streamBody config rest

/-- Wrap a transport error the way the adapter catch block does. -/
def wrapStreamError (e : VendorError) : AIServiceError :=
  mkAIServiceError (jsOrStr e.message "Claude流式API调用失败") "claude" e.status

/-- streamChat over a transport trace: the chunks the generator yields, and
the `AIServiceError` it raises afterwards when the transport errored before a
`message_stop` was seen. -/
def streamChat (trace : StreamTrace) (_messages : List ChatMessage)
    (config : AIServiceConfig) : List StreamResponse × Option AIServiceError :=
  let r := streamBody config trace.events
  if r.2 then (r.1, none)
  else
    match trace.midStreamError with
    | some e => (r.1, some (wrapStreamError e))
    | none => (r.1, none)

/-- Shape of a `fetch` response as used by `testConnection` / `getAvailableModels`. -/
structure FetchModels where
  ok : Bool
  status : Nat
  dataField : Option (List (String × Option String))
deriving DecidableEq, Repr

/-- testConnection: `fetch` the model list, return `response.ok`, `false` on throw. -/
def testConnection (fetchOutcome : Except VendorError FetchModels) : Bool :=
  match fetchOutcome with
  | .ok r => r.ok
  | .error _ => false

/-- Hard-coded fallback model list used when the vendor returns zero models
or a body without a `data` array. -/
def defaultModels : List ModelInfo :=
  [ { id := "claude-3-5-sonnet-20241022", name := "Claude 3.5 Sonnet" },
    { id := "claude-3-5-haiku-20241022", name := "Claude 3.5 Haiku" },
    { id := "claude-3-opus-20240229", name := "Claude 3 Opus" },
    { id := "claude-3-sonnet-20240229", name := "Claude 3 Sonnet" },
    { id := "claude-3-haiku-20240307", name := "Claude 3 Haiku" } ]

/-- getAvailableModels: non-2xx throws (wrapped by the catch into
`AIServiceError`), transport errors are wrapped, success maps the entries. -/
def getAvailableModels (fetchOutcome : Except VendorError FetchModels) :
    Except AIServiceError (List ModelInfo) :=
  match fetchOutcome with
  | .error e =>
    .error (mkAIServiceError (jsOrStr e.message "Claude API调用失败，无法获取模型列表") "claude" e.status)
  | .ok r =>
    if !r.ok then
      .error (mkAIServiceError ("HTTP error! status: " ++ toString r.status) "claude" none)
    else
      match r.dataField with
      | some entries =>
        let models := entries.map fun e =>
          { id := e.1, name := jsOrStr (e.2.getD "") e.1 : ModelInfo }
        if models.length = 0 then .ok defaultModels else .ok models
      | none => .ok defaultModels

end ClaudeAdapter

namespace OpenAIAdapter

/-- Request body built by `chat` / `streamChat` (routes/chat.ts,
`OpenAIAdapter`).  Only the fields the code ever sets appear; `temperature`
is `Option` because the automatic retry deletes it. -/
structure Request where
  model : String
  messages : List (String × String)
  max_completion_tokens : Option Int
  temperature : Option ℚ
  stream : Bool
deriving DecidableEq, Repr

/-- Builds `requestParams` / `streamParams` for the classic Chat Completions
call: `max_completion_tokens: maxTokens || 2000`, then
`requestParams.temperature = config.temperature || 0.7`. -/
def buildRequest (messages : List ChatMessage) (config : AIServiceConfig)
    (stream : Bool) : Request :=
  { model := config.model
    messages := messages.map fun m => (roleString m.role, m.content)
    max_completion_tokens := some (jsOrInt config.maxTokens 2000)
    temperature := some (jsOrRat config.temperature 0.7)
    stream := stream }

/-- A choice of the vendor unary response. -/
structure Choice where
  messageContent : Option String
deriving DecidableEq, Repr

/-- Vendor unary response shape consumed by `chat`. -/
structure Response where
  choices : List Choice
  model : String
  usage : Option (Int × Int × Int)
deriving DecidableEq, Repr

/-- Wrap a caught error the way the adapter catch block does
(`error.message || fallback`, provider, `error.status`). -/
def wrapError (e : VendorError) : AIServiceError :=
  mkAIServiceError (jsOrStr e.message "OpenAI API调用失败") "openai" e.status

/-- Whether a vendor rejection matches the single documented retry case:
`error.code === "unsupported_value" && error.param === "temperature"`. -/
def isUnsupportedTemperature (e : VendorError) : Bool :=
  e.code == some "unsupported_value" && e.param == some "temperature"

/-- Content extraction of `chat`: `choices[0]?.message?.content` must be
truthy, else `AIServiceError("No response content")` is thrown (and wrapped). -/
def extractResponse (resp : Response) : Except AIServiceError AIResponse :=
  match resp.choices.head? with
  | some choice =>
    match choice.messageContent with
    | some c =>
      if c = "" then .error (mkAIServiceError "No response content" "openai" none)
      else
        .ok { content := c, model := resp.model, provider := "openai",
              usage := resp.usage.map fun u => ⟨u.1, u.2.1, u.2.2⟩,
              responseId := none }
    | none => .error (mkAIServiceError "No response content" "openai" none)
  | none => .error (mkAIServiceError "No response content" "openai" none)

/-- chat over a vendor oracle.  Second component: the requests actually sent
to the vendor, in order. -/
def chat (vendor : Request → Except VendorError Response)
    (messages : List ChatMessage) (config : AIServiceConfig) :
    Except AIServiceError AIResponse × List Request :=
  let req := buildRequest messages config false
  match vendor req with
  | .ok resp => (extractResponse resp, [req])
  | .error e =>
    if isUnsupportedTemperature e then
      let retryReq := { req with temperature := none }
      match vendor retryReq with
      | .ok resp => (extractResponse resp, [req, retryReq])
      | .error e2 => (.error (wrapError e2), [req, retryReq])
    else
      (.error (wrapError e), [req])

/-- One choice of a vendor stream chunk (`chunk.choices[0]`). -/
structure StreamChoice where
  deltaContent : Option String
  finishReason : Option String
deriving DecidableEq, Repr

/-- One vendor stream chunk. -/
structure StreamEvent where
  choices : List StreamChoice
  model : String
deriving DecidableEq, Repr

/-- One streaming transport run for the classic adapter. -/
structure StreamTrace where
  events : List StreamEvent
  midStreamError : Option VendorError
deriving DecidableEq, Repr

/-- Whether an event makes the loop emit the final chunk and break
(`choice?.finish_reason` truthy). -/
def evFinish (ev : StreamEvent) : Bool :=
  match ev.choices.head? with
  | some ch => jsTruthyStr ch.finishReason
  | none => false

/-- The delta text an event contributes (`choice?.delta?.content`, with falsy
deltas skipped; skipping contributes the empty string). -/
def evDelta (ev : StreamEvent) : String :=
  match ev.choices.head? with
  | some ch => (ch.deltaContent.getD "")
  | none => ""

/-- The `for await` loop body of `streamChat`: yields a non-final chunk for
each truthy delta and a final chunk plus `break` at a truthy finish reason. -/
def streamBody : List StreamEvent → List StreamResponse × Bool
  | [] => ([], false)
  | ev :: rest =>
    match ev.choices.head? with
    | none => streamBody rest
    | some ch =>
      let deltas : List StreamResponse :=
        if jsTruthyStr ch.deltaContent then
          [{ content := ch.deltaContent.getD "", done := false, model := ev.model,
             provider := "openai" }]
        else []
      if jsTruthyStr ch.finishReason then
        (deltas ++ [{ content := "", done := true, model := ev.model, provider := "openai" }], true)
      else
        let r := streamBody rest
        (deltas ++ r.1, r.2)

/-- Wrap a streaming transport error the way the catch block does. -/
def wrapStreamError (e : VendorError) : AIServiceError :=
  mkAIServiceError (jsOrStr e.message "OpenAI流式API调用失败") "openai" e.status

/-- streamChat over a transport trace (stream already established): yielded
chunks, plus the error raised when the transport fails before a finish
reason was seen. -/
def streamChat (trace : StreamTrace) (_messages : List ChatMessage)
    (_config : AIServiceConfig) : List StreamResponse × Option AIServiceError :=
  let r := streamBody trace.events
  if r.2 then (r.1, none)
  else
    match trace.midStreamError with
    | some e => (r.1, some (wrapStreamError e))
    | none => (r.1, none)

end OpenAIAdapter

namespace GeminiAdapter

/-- One entry of the Gemini turn history (`{role, parts:[{text}]}`). -/
structure Content where
  role : String
  parts : List String
deriving DecidableEq, Repr

/-- The `for` loop of convertMessages: accumulates the history array and the
mutable `systemInstruction` string (each system message overwrites it). -/
def convertLoop : List ChatMessage → List Content → String → List Content × String
  | [], hist, sysInstr => (hist, sysInstr)
  | m :: rest, hist, sysInstr =>
    match m.role with
    | .system => convertLoop rest hist m.content
    | .user => convertLoop rest (hist ++ [{ role := "user", parts := [m.content] }]) sysInstr
    | .assistant => convertLoop rest (hist ++ [{ role := "model", parts := [m.content] }]) sysInstr

/-- convertMessages (gemini-adapter.ts): returns the turn history and
`systemInstruction || undefined`. -/
def convertMessages (messages : List ChatMessage) : List Content × Option String :=
  let r := convertLoop messages [] ""
  (r.1, if r.2 = "" then none else some r.2)

end GeminiAdapter

namespace OllamaAdapter

/-- Request body built by `chat` / `streamChat` (OllamaAdapter, OpenAI
compatible wire format). -/
structure Request where
  model : String
  messages : List (String × String)
  temperature : Option ℚ
  max_tokens : Option Int
  top_p : Option ℚ
  frequency_penalty : Option ℚ
  presence_penalty : Option ℚ
  stop : Option (List String)
  stream : Bool
deriving DecidableEq, Repr

/-- Builds `requestParams` / `streamParams` for Ollama. -/
def buildRequest (messages : List ChatMessage) (config : AIServiceConfig)
    (stream : Bool) : Request :=
  { model := config.model
    messages := messages.map fun m => (roleString m.role, m.content)
    temperature := some (jsOrRat config.temperature 0.7)
    max_tokens := some (jsOrInt config.maxTokens 2000)
    top_p := config.topP
    frequency_penalty := config.frequencyPenalty
    presence_penalty := config.presencePenalty
    stop := config.stop
    stream := stream }

end OllamaAdapter

namespace OpenAIResponsesAdapter

/-- Request body built by `chat` (openai-responses-adapter.ts): every model
parameter is added only under a `!== undefined` guard. -/
structure Request where
  model : String
  input : List (String × String)
  store : Bool
  temperature : Option ℚ
  max_completion_tokens : Option Int
  top_p : Option ℚ
  frequency_penalty : Option ℚ
  presence_penalty : Option ℚ
  stop : Option (List String)
  previous_response_id : Option String
deriving DecidableEq, Repr

/-- Builds `requestParams` for the Responses API call. -/
def buildRequest (messages : List ChatMessage) (config : AIServiceConfig) : Request :=
  { model := config.model
    input := messages.map fun m => (roleString m.role, m.content)
    store := config.store != some false
    temperature := config.temperature
    max_completion_tokens := config.maxTokens
    top_p := config.topP
    frequency_penalty := config.frequencyPenalty
    presence_penalty := config.presencePenalty
    stop := config.stop
    previous_response_id := config.previousResponseId }

/-- getAvailableModels (openai-responses-adapter.ts): on any vendor failure
the catch block returns an empty list instead of raising. -/
def getAvailableModels (listOutcome : Except VendorError (List String)) :
    Except AIServiceError (List ModelInfo) :=
  match listOutcome with
  | .ok ids =>
    .ok ((ids.filter fun i => strIncludes i "gpt").map fun i => { id := i, name := i })
  | .error _ => .ok []

end OpenAIResponsesAdapter

namespace OpenAIResponsesFallbackAdapter

/-- streamChat of the second `OpenAIResponsesAdapter` revision: the Responses
API has no streaming, so it performs the unary `chat` call and simulates a
stream (full content as one non-final chunk, then the final marker). -/
def streamChat (chatOutcome : Except AIServiceError AIResponse) :
    List StreamResponse × Option AIServiceError :=
  match chatOutcome with
  | .ok r =>
    ([{ content := r.content, done := false, model := r.model, provider := "openai-responses" },
      { content := "", done := true, model := r.model, provider := "openai-responses" }], none)
  | .error e =>
    ([], some (mkAIServiceError (jsOrStr e.message "OpenAI Responses API调用失败")
        "openai-responses" e.statusCode))

end OpenAIResponsesFallbackAdapter

/-- Concatenation of a list of strings. -/
def joinStrings : List String → String
  | [] => ""
  | s :: rest => s ++ joinStrings rest

/-- Concatenation of the non-final chunk texts of a stream. -/
def nonFinalText (chunks : List StreamResponse) : String :=
  joinStrings ((chunks.filter fun c => !c.done).map StreamResponse.content)

/-- Content of the last system message of a list, if any (specification
device used to characterise the Gemini conversion loop). -/
def lastSysContent : List ChatMessage → Option String
  | [] => none
  | m :: rest =>
    match lastSysContent rest with
    | some s => some s
    | none => if m.role == .system then some m.content else none

/-! Concrete fixtures used by witnesses and counterexamples. -/

/-- Sample message history. -/
def sampleMessages : List ChatMessage :=
  [{ role := .system, content := "Be helpful" }, { role := .user, content := "Hi" }]

/-- Sample configuration with all optional parameters unset. -/
def sampleConfig : AIServiceConfig :=
  { provider := "openai", apiKey := "sk-test", baseUrl := none, model := "gpt-4o",
    temperature := none, maxTokens := none, topP := none, frequencyPenalty := none,
    presencePenalty := none, stop := none, previousResponseId := none, store := none }

/-- Configuration violating two rules at once: empty credential and
out-of-range temperature. -/
def doubleBadConfig : AIServiceConfig :=
  { sampleConfig with apiKey := "", temperature := some 5 }

/-- Configuration with temperature and maxTokens explicitly zero. -/
def zeroConfig : AIServiceConfig :=
  { sampleConfig with temperature := some 0, maxTokens := some 0 }

/-- A vendor rejection matching the documented retry shape. -/
def unsupportedTempError : VendorError :=
  { message := "Unsupported value: temperature", status := some 400,
    code := some "unsupported_value", param := some "temperature" }

/-- A vendor rejection not matching the retry shape. -/
def plainVendorError : VendorError :=
  { message := "401 Unauthorized", status := some 401, code := none, param := none }

/-- Successful vendor response used by the retry witness. -/
def retryResponse : OpenAIAdapter.Response :=
  { choices := [{ messageContent := some "Hello from retry" }], model := "o1-mini", usage := none }

/-- Vendor oracle that rejects any request carrying a temperature and accepts
the same request with the field removed. -/
def retryVendor : OpenAIAdapter.Request → Except VendorError OpenAIAdapter.Response :=
  fun r =>
    match r.temperature with
    | none => .ok retryResponse
    | some _ => .error unsupportedTempError

/-- Normalized result the retry witness expects. -/
def retryResult : AIResponse :=
  { content := "Hello from retry", model := "o1-mini", provider := "openai",
    usage := none, responseId := none }

/-- Stub adapter instance for dispatcher fixtures. -/
def stubAdapter : AdapterModel :=
  { hasStreamChat := true, streamOutput := [],
    chatOutcome := .error (mkAIServiceError "stub" "stub" none),
    testConnectionOutcome := .ok true, modelsOutcome := .ok [] }

/-- Stub adapter without the optional streamChat member. -/
def stubAdapterNoStream : AdapterModel :=
  { stubAdapter with hasStreamChat := false }

/-- Sample dispatcher registry. -/
def sampleRegistry : AIServiceManager.Registry :=
  [("claude", stubAdapter), ("stub", stubAdapterNoStream)]

/-- Claude stream trace that errors mid-stream before any completion marker. -/
def claudeErrorTrace : ClaudeAdapter.StreamTrace :=
  { events := [.textDelta "Hel"],
    midStreamError := some { message := "connection reset", status := none, code := none, param := none } }

/-- Claude stream trace whose transport closes silently without a
`message_stop` marker. -/
def claudeSilentTrace : ClaudeAdapter.StreamTrace :=
  { events := [.textDelta "Hi"], midStreamError := none }

/-- Claude stream trace that completes normally. -/
def claudeStopTrace : ClaudeAdapter.StreamTrace :=
  { events := [.textDelta "Hel", .textDelta "lo", .messageStop], midStreamError := none }

/-- OpenAI stream trace that completes normally. -/
def openaiStopTrace : OpenAIAdapter.StreamTrace :=
  { events :=
      [ { choices := [{ deltaContent := some "Hi ", finishReason := none }], model := "gpt-4o" },
        { choices := [{ deltaContent := some "there", finishReason := some "stop" }], model := "gpt-4o" } ],
    midStreamError := none }

/-- OpenAI stream trace that closes without a finish reason. -/
def openaiSilentTrace : OpenAIAdapter.StreamTrace :=
  { events := [ { choices := [{ deltaContent := some "Hi", finishReason := none }], model := "gpt-4o" } ],
    midStreamError := none }

/-- Unary vendor oracle agreeing with `openaiStopTrace`. -/
def agreeingVendor : OpenAIAdapter.Request → Except VendorError OpenAIAdapter.Response :=
  fun _ => .ok { choices := [{ messageContent := some "Hi there" }], model := "gpt-4o", usage := none }

/-- Message history holding two system messages. -/
def twoSystemMessages : List ChatMessage :=
  [{ role := .system, content := "Be terse" },
   { role := .system, content := "Answer in French" },
   { role := .user, content := "Hi" }]

/-! Helper lemmas about the embedded operations. -/

theorem joinStrings_append (a b : List String) :
    joinStrings (a ++ b) = joinStrings a ++ joinStrings b := by
  induction a with
  | nil => simp [joinStrings]
  | cons s rest ih => simp [joinStrings, ih, String.append_assoc]

theorem nonFinalText_append (a b : List StreamResponse) :
    nonFinalText (a ++ b) = nonFinalText a ++ nonFinalText b := by
  simp [nonFinalText, List.filter_append, joinStrings_append]

theorem head?_filter_eq_find? {α : Type} (p : α → Bool) (l : List α) :
    (l.filter p).head? = l.find? p := by
  induction l with
  | nil => rfl
  | cons a rest ih =>
    by_cases h : p a
    · simp [List.filter_cons, List.find?_cons, h]
    · simp [List.filter_cons, List.find?_cons, h, ih]

/-- The Claude stream loop emits exactly one final chunk, in last position,
whenever the events contain a `message_stop` marker. -/
theorem claudeStreamBody_stop (config : AIServiceConfig) :
    ∀ evs : List ClaudeAdapter.StreamEvent,
      ClaudeAdapter.StreamEvent.messageStop ∈ evs →
      ∃ cs, (ClaudeAdapter.streamBody config evs).1 =
          cs ++ [{ content := "", done := true, model := config.model, provider := "claude" }]
        ∧ (∀ c ∈ cs, c.done = false) ∧ (ClaudeAdapter.streamBody config evs).2 = true := by
  intro evs h
  induction evs with
  | nil => cases h
  | cons ev rest ih =>
    cases ev with
    | textDelta t =>
      have hr : ClaudeAdapter.StreamEvent.messageStop ∈ rest := by
        rcases List.mem_cons.mp h with h1 | h2
        · exact absurd h1 (by simp)
        · exact h2
      obtain ⟨cs, hcs, hdone, hb⟩ := ih hr
      refine ⟨{ content := t, done := false, model := config.model, provider := "claude" } :: cs,
        ?_, ?_, ?_⟩
      · simp [ClaudeAdapter.streamBody, hcs]
      · intro c hc
        rcases List.mem_cons.mp hc with rfl | hc2
        · rfl
        · exact hdone c hc2
      · simp [ClaudeAdapter.streamBody, hb]
    | messageStop =>
      exact ⟨[], by simp [ClaudeAdapter.streamBody], by simp, by simp [ClaudeAdapter.streamBody]⟩
    | otherEvent =>
      have hr : ClaudeAdapter.StreamEvent.messageStop ∈ rest := by
        rcases List.mem_cons.mp h with h1 | h2
        · exact absurd h1 (by simp)
        · exact h2
      obtain ⟨cs, hcs, hdone, hb⟩ := ih hr
      exact ⟨cs, by simp [ClaudeAdapter.streamBody, hcs], hdone,
        by simp [ClaudeAdapter.streamBody, hb]⟩

/-- Without a `message_stop` marker the Claude stream loop never emits a
final chunk and never reports a break. -/
theorem claudeStreamBody_noStop (config : AIServiceConfig) :
    ∀ evs : List ClaudeAdapter.StreamEvent,
      ClaudeAdapter.StreamEvent.messageStop ∉ evs →
      (∀ c ∈ (ClaudeAdapter.streamBody config evs).1, c.done = false)
      ∧ (ClaudeAdapter.streamBody config evs).2 = false := by
  intro evs h
  induction evs with
  | nil => exact ⟨(by intro c hc; cases hc), rfl⟩
  | cons ev rest ih =>
    cases ev with
    | textDelta t =>
      have hr : ClaudeAdapter.StreamEvent.messageStop ∉ rest := fun hm => h (List.mem_cons_of_mem _ hm)
      obtain ⟨hdone, hb⟩ := ih hr
      refine ⟨?_, by simp [ClaudeAdapter.streamBody, hb]⟩
      intro c hc
      simp only [ClaudeAdapter.streamBody] at hc
      rcases List.mem_cons.mp hc with rfl | hc2
      · rfl
      · exact hdone c hc2
    | messageStop => exact absurd (List.mem_cons_self _ _) h
    | otherEvent =>
      have hr : ClaudeAdapter.StreamEvent.messageStop ∉ rest := fun hm => h (List.mem_cons_of_mem _ hm)
      obtain ⟨hdone, hb⟩ := ih hr
      exact ⟨by intro c hc; simp only [ClaudeAdapter.streamBody] at hc; exact hdone c hc,
        by simp [ClaudeAdapter.streamBody, hb]⟩

/-- Unfolding `evFinish` for an event with a first choice. -/
theorem openaiEvFinish_head (ev : OpenAIAdapter.StreamEvent) (ch : OpenAIAdapter.StreamChoice)
    (h : ev.choices.head? = some ch) :
    OpenAIAdapter.evFinish ev = jsTruthyStr ch.finishReason := by
  unfold OpenAIAdapter.evFinish
  rw [h]

/-- Unfolding `evFinish` for an event without choices. -/
theorem openaiEvFinish_none (ev : OpenAIAdapter.StreamEvent)
    (h : ev.choices.head? = none) : OpenAIAdapter.evFinish ev = false := by
  unfold OpenAIAdapter.evFinish
  rw [h]

/-- Unfolding `evDelta` for an event with a first choice. -/
theorem openaiEvDelta_head (ev : OpenAIAdapter.StreamEvent) (ch : OpenAIAdapter.StreamChoice)
    (h : ev.choices.head? = some ch) :
    OpenAIAdapter.evDelta ev = ch.deltaContent.getD "" := by
  unfold OpenAIAdapter.evDelta
  rw [h]

/-- Unfolding `evDelta` for an event without choices. -/
theorem openaiEvDelta_none (ev : OpenAIAdapter.StreamEvent)
    (h : ev.choices.head? = none) : OpenAIAdapter.evDelta ev = "" := by
  unfold OpenAIAdapter.evDelta
  rw [h]

/-- The delta of a falsy optional string is empty. -/
theorem getD_of_not_truthy (s : Option String) (h : jsTruthyStr s = false) :
    s.getD "" = "" := by
  cases s with
  | none => rfl
  | some t =>
    unfold jsTruthyStr at h
    simp at h
    simp [h]

/-- The OpenAI stream loop emits exactly one final chunk, in last position,
whenever some event carries a truthy finish reason. -/
theorem openaiStreamBody_stop :
    ∀ evs : List OpenAIAdapter.StreamEvent,
      evs.any OpenAIAdapter.evFinish = true →
      ∃ cs m, (OpenAIAdapter.streamBody evs).1 =
          cs ++ [{ content := "", done := true, model := m, provider := "openai" }]
        ∧ (∀ c ∈ cs, c.done = false) ∧ (OpenAIAdapter.streamBody evs).2 = true := by
  intro evs h
  induction evs with
  | nil => simp at h
  | cons ev rest ih =>
    cases hf : OpenAIAdapter.evFinish ev with
    | true =>
      cases hc : ev.choices.head? with
      | none => rw [openaiEvFinish_none ev hc] at hf; cases hf
      | some ch =>
        rw [openaiEvFinish_head ev ch hc] at hf
        cases hd : jsTruthyStr ch.deltaContent with
        | true =>
          refine ⟨[⟨ch.deltaContent.getD "", false, ev.model, "openai"⟩], ev.model, ?_, ?_, ?_⟩
          · simp [OpenAIAdapter.streamBody, hc, hd, hf]
          · intro c hcm
            rcases List.mem_cons.mp hcm with rfl | hcm2
            · rfl
            · cases hcm2
          · simp [OpenAIAdapter.streamBody, hc, hd, hf]
        | false =>
          refine ⟨[], ev.model, ?_, (by intro c hcm; cases hcm), ?_⟩
          · simp [OpenAIAdapter.streamBody, hc, hd, hf]
          · simp [OpenAIAdapter.streamBody, hc, hd, hf]
    | false =>
      have hr : rest.any OpenAIAdapter.evFinish = true := by
        rcases List.any_eq_true.mp h with ⟨x, hx, hpx⟩
        rcases List.mem_cons.mp hx with rfl | hx2
        · rw [hf] at hpx; cases hpx
        · exact List.any_eq_true.mpr ⟨x, hx2, hpx⟩
      obtain ⟨cs, m, hcs, hdone, hb⟩ := ih hr
      cases hc : ev.choices.head? with
      | none =>
        exact ⟨cs, m, (by simp [OpenAIAdapter.streamBody, hc, hcs]),
          hdone, (by simp [OpenAIAdapter.streamBody, hc, hb])⟩
      | some ch =>
        rw [openaiEvFinish_head ev ch hc] at hf
        cases hd : jsTruthyStr ch.deltaContent with
        | true =>
          refine ⟨⟨ch.deltaContent.getD "", false, ev.model, "openai"⟩ :: cs, m, ?_, ?_, ?_⟩
          · simp [OpenAIAdapter.streamBody, hc, hd, hf, hcs]
          · intro c hcm
            rcases List.mem_cons.mp hcm with rfl | hcm2
            · rfl
            · exact hdone c hcm2
          · simp [OpenAIAdapter.streamBody, hc, hd, hf, hb]
        | false =>
          exact ⟨cs, m, (by simp [OpenAIAdapter.streamBody, hc, hd, hf, hcs]),
            hdone, (by simp [OpenAIAdapter.streamBody, hc, hd, hf, hb])⟩

/-- Without any truthy finish reason the OpenAI stream loop never emits a
final chunk and never reports a break. -/
theorem openaiStreamBody_noStop :
    ∀ evs : List OpenAIAdapter.StreamEvent,
      evs.any OpenAIAdapter.evFinish = false →
      (∀ c ∈ (OpenAIAdapter.streamBody evs).1, c.done = false)
      ∧ (OpenAIAdapter.streamBody evs).2 = false := by
  intro evs h
  induction evs with
  | nil => exact ⟨(by intro c hc; cases hc), rfl⟩
  | cons ev rest ih =>
    rw [List.any_cons, Bool.or_eq_false_iff] at h
    obtain ⟨hf, hrest⟩ := h
    obtain ⟨hdone, hb⟩ := ih hrest
    cases hc : ev.choices.head? with
    | none =>
      refine ⟨?_, (by simp [OpenAIAdapter.streamBody, hc, hb])⟩
      intro c hcm
      simp only [OpenAIAdapter.streamBody, hc] at hcm
      exact hdone c hcm
    | some ch =>
      rw [openaiEvFinish_head ev ch hc] at hf
      cases hd : jsTruthyStr ch.deltaContent with
      | true =>
        refine ⟨?_, (by simp [OpenAIAdapter.streamBody, hc, hd, hf, hb])⟩
        intro c hcm
        simp only [OpenAIAdapter.streamBody, hc, hd, hf, if_true, Bool.false_eq_true,
          if_false, List.singleton_append] at hcm
        rcases List.mem_cons.mp hcm with rfl | hcm2
        · rfl
        · exact hdone c hcm2
      | false =>
        refine ⟨?_, (by simp [OpenAIAdapter.streamBody, hc, hd, hf, hb])⟩
        intro c hcm
        simp only [OpenAIAdapter.streamBody, hc, hd, hf, Bool.false_eq_true, if_false,
          List.nil_append] at hcm
        exact hdone c hcm

/-- The OpenAI stream loop commutes with appending, as long as the first
part contains no finish reason. -/
theorem openaiStreamBody_append_noFinish :
    ∀ es rest : List OpenAIAdapter.StreamEvent,
      es.any OpenAIAdapter.evFinish = false →
      (OpenAIAdapter.streamBody (es ++ rest)).1 =
          (OpenAIAdapter.streamBody es).1 ++ (OpenAIAdapter.streamBody rest).1
      ∧ (OpenAIAdapter.streamBody (es ++ rest)).2 = (OpenAIAdapter.streamBody rest).2 := by
  intro es rest h
  induction es with
  | nil => simp [OpenAIAdapter.streamBody]
  | cons ev es ih =>
    rw [List.any_cons, Bool.or_eq_false_iff] at h
    obtain ⟨hf, hes⟩ := h
    obtain ⟨ih1, ih2⟩ := ih hes
    cases hc : ev.choices.head? with
    | none =>
      constructor
      · simpa [List.cons_append, OpenAIAdapter.streamBody, hc] using ih1
      · simpa [List.cons_append, OpenAIAdapter.streamBody, hc] using ih2
    | some ch =>
      rw [openaiEvFinish_head ev ch hc] at hf
      cases hd : jsTruthyStr ch.deltaContent with
      | true =>
        constructor
        · simp [List.cons_append, OpenAIAdapter.streamBody, hc, hd, hf, ih1]
        · simp [List.cons_append, OpenAIAdapter.streamBody, hc, hd, hf, ih2]
      | false =>
        constructor
        · simp [List.cons_append, OpenAIAdapter.streamBody, hc, hd, hf, ih1]
        · simp [List.cons_append, OpenAIAdapter.streamBody, hc, hd, hf, ih2]

/-- Concatenated non-final text of a finish-free event list equals the
concatenation of the event deltas. -/
theorem openaiNonFinal_noFinish :
    ∀ es : List OpenAIAdapter.StreamEvent,
      es.any OpenAIAdapter.evFinish = false →
      nonFinalText (OpenAIAdapter.streamBody es).1 =
        joinStrings (es.map OpenAIAdapter.evDelta) := by
  intro es h
  induction es with
  | nil => rfl
  | cons ev es ih =>
    rw [List.any_cons, Bool.or_eq_false_iff] at h
    obtain ⟨hf, hes⟩ := h
    have ihx := ih hes
    rw [List.map_cons]
    cases hc : ev.choices.head? with
    | none =>
      rw [openaiEvDelta_none ev hc]
      simp only [OpenAIAdapter.streamBody, hc, joinStrings]
      rw [ihx]
      simp
    | some ch =>
      rw [openaiEvFinish_head ev ch hc] at hf
      rw [openaiEvDelta_head ev ch hc]
      cases hd : jsTruthyStr ch.deltaContent with
      | true =>
        simp only [OpenAIAdapter.streamBody, hc, hd, hf, Bool.false_eq_true, if_false,
          if_true, List.singleton_append, joinStrings]
        rw [nonFinalText]
        simp only [List.filter_cons]
        rw [show (!((⟨ch.deltaContent.getD "", false, ev.model, "openai"⟩ :
            StreamResponse)).done) = true from rfl]
        simp only [if_true, List.map_cons, joinStrings]
        rw [← ihx]
        rfl
      | false =>
        have hdelta : ch.deltaContent.getD "" = "" := getD_of_not_truthy _ hd
        simp only [OpenAIAdapter.streamBody, hc, hd, hf, Bool.false_eq_true, if_false,
          List.nil_append, joinStrings, hdelta]
        rw [ihx]
        simp

/-- A single finish event contributes its own delta followed by the final
chunk, and reports the break. -/
theorem openaiStreamBody_finishEvent (ev : OpenAIAdapter.StreamEvent)
    (h : OpenAIAdapter.evFinish ev = true) :
    nonFinalText (OpenAIAdapter.streamBody [ev]).1 = OpenAIAdapter.evDelta ev
    ∧ (OpenAIAdapter.streamBody [ev]).2 = true := by
  cases hc : ev.choices.head? with
  | none => rw [openaiEvFinish_none ev hc] at h; cases h
  | some ch =>
    rw [openaiEvFinish_head ev ch hc] at h
    rw [openaiEvDelta_head ev ch hc]
    cases hd : jsTruthyStr ch.deltaContent with
    | true =>
      constructor
      · simp [OpenAIAdapter.streamBody, hc, hd, h, nonFinalText, List.filter_cons, joinStrings]
      · simp [OpenAIAdapter.streamBody, hc, hd, h]
    | false =>
      have hdelta : ch.deltaContent.getD "" = "" := getD_of_not_truthy _ hd
      constructor
      · simp [OpenAIAdapter.streamBody, hc, hd, h, nonFinalText, List.filter_cons, joinStrings,
          hdelta]
      · simp [OpenAIAdapter.streamBody, hc, hd, h]

/-- The Gemini conversion loop's system instruction is the content of the
last system message, defaulting to the accumulator. -/
theorem geminiConvertLoop_sys :
    ∀ (msgs : List ChatMessage) (hist : List GeminiAdapter.Content) (sysInstr : String),
      (GeminiAdapter.convertLoop msgs hist sysInstr).2 =
        (lastSysContent msgs).getD sysInstr := by
  intro msgs
  induction msgs with
  | nil => intro hist s; rfl
  | cons m rest ih =>
    intro hist s
    cases hr : m.role with
    | system =>
      simp only [GeminiAdapter.convertLoop, hr, lastSysContent]
      rw [ih]
      cases hl : lastSysContent rest with
      | some t => simp [hl, hr]
      | none => simp [hl, hr]
    | user =>
      simp only [GeminiAdapter.convertLoop, hr, lastSysContent]
      rw [ih]
      cases hl : lastSysContent rest with
      | some t => simp [hl, hr]
      | none => simp [hl, hr]
    | assistant =>
      simp only [GeminiAdapter.convertLoop, hr, lastSysContent]
      rw [ih]
      cases hl : lastSysContent rest with
      | some t => simp [hl, hr]
      | none => simp [hl, hr]

/-- Every entry the Gemini conversion loop appends to the history carries
role "user" or "model". -/
theorem geminiConvertLoop_hist :
    ∀ (msgs : List ChatMessage) (hist : List GeminiAdapter.Content) (s : String)
      (g : GeminiAdapter.Content),
      g ∈ (GeminiAdapter.convertLoop msgs hist s).1 →
      g ∈ hist ∨ g.role = "user" ∨ g.role = "model" := by
  intro msgs
  induction msgs with
  | nil => intro hist s g hg; exact Or.inl hg
  | cons m rest ih =>
    intro hist s g hg
    cases hr : m.role with
    | system =>
      simp only [GeminiAdapter.convertLoop, hr] at hg
      exact ih _ _ g hg
    | user =>
      simp only [GeminiAdapter.convertLoop, hr] at hg
      rcases ih _ _ g hg with hmem | hro
      · rcases List.mem_append.mp hmem with h1 | h2
        · exact Or.inl h1
        · have hg2 := List.mem_singleton.mp h2
          subst hg2
          exact Or.inr (Or.inl rfl)
      · exact Or.inr hro
    | assistant =>
      simp only [GeminiAdapter.convertLoop, hr] at hg
      rcases ih _ _ g hg with hmem | hro
      · rcases List.mem_append.mp hmem with h1 | h2
        · exact Or.inl h1
        · have hg2 := List.mem_singleton.mp h2
          subst hg2
          exact Or.inr (Or.inr rfl)
      · exact Or.inr hro

/-! Claim theorems. -/

/-- Claim C2: `validateConfig` returns all violated rules in a single call:
`valid` is `true` exactly when the error list is empty, and for every
credential-requiring provider a config with `temperature = 5.0` and an empty
`apiKey` yields at least two distinct error strings.  Both shipped revisions
of the function are covered. -/
theorem claim_C2 :
    (∀ p c, (AIServiceManager.validateConfig p c).valid = true ↔
        (AIServiceManager.validateConfig p c).errors = [])
    ∧ (∀ p c, p ∈ AIServiceManager.credentialProviders → c.apiKey = "" →
        c.temperature = some 5 →
        ∃ e1 e2, e1 ∈ (AIServiceManager.validateConfig p c).errors ∧
          e2 ∈ (AIServiceManager.validateConfig p c).errors ∧ e1 ≠ e2)
    ∧ (∀ p c, (AIServiceManagerV1.validateConfig p c).valid = true ↔
        (AIServiceManagerV1.validateConfig p c).errors = [])
    ∧ (∀ p c, p ∈ AIServiceManagerV1.credentialProviders → c.apiKey = "" →
        c.temperature = some 5 →
        ∃ e1 e2, e1 ∈ (AIServiceManagerV1.validateConfig p c).errors ∧
          e2 ∈ (AIServiceManagerV1.validateConfig p c).errors ∧ e1 ≠ e2) := by
  have h25 : (2:ℚ) < 5 := by norm_num
  have h15 : (1:ℚ) < 5 := by norm_num
  refine ⟨?_, ?_, ?_, ?_⟩
  · intro p c
    simp only [AIServiceManager.validateConfig]
    exact List.isEmpty_iff
  · intro p c hp hk ht
    simp only [AIServiceManager.credentialProviders, List.mem_cons,
      List.not_mem_nil, or_false] at hp
    rcases hp with rfl | rfl | rfl | rfl | rfl
    · refine ⟨"API Key不能为空", "OpenAI temperature值必须在0.0-2.0之间", ?_, ?_, by decide⟩
      · simp [AIServiceManager.validateConfig, hk]
      · simp [AIServiceManager.validateConfig, ht, rangeErr, h25]
    · refine ⟨"API Key不能为空", "OpenAI temperature值必须在0.0-2.0之间", ?_, ?_, by decide⟩
      · simp [AIServiceManager.validateConfig, hk]
      · simp [AIServiceManager.validateConfig, ht, rangeErr, h25]
    · refine ⟨"API Key不能为空", "Claude temperature值必须在0.0-1.0之间", ?_, ?_, by decide⟩
      · simp [AIServiceManager.validateConfig, hk]
      · simp [AIServiceManager.validateConfig, ht, rangeErr, h15]
    · refine ⟨"API Key不能为空", "Gemini temperature值必须在0.0-2.0之间", ?_, ?_, by decide⟩
      · simp [AIServiceManager.validateConfig, hk]
      · simp [AIServiceManager.validateConfig, ht, rangeErr, h25]
    · refine ⟨"API Key不能为空", "XAI temperature值必须在0.0-1.0之间", ?_, ?_, by decide⟩
      · simp [AIServiceManager.validateConfig, hk]
      · simp [AIServiceManager.validateConfig, ht, rangeErr, h15]
  · intro p c
    simp only [AIServiceManagerV1.validateConfig]
    exact List.isEmpty_iff
  · intro p c hp hk ht
    simp only [AIServiceManagerV1.credentialProviders, List.mem_cons,
      List.not_mem_nil, or_false] at hp
    refine ⟨"API Key不能为空", "温度值必须在0-2之间", ?_, ?_, by decide⟩
    · rcases hp with rfl | rfl | rfl | rfl | rfl <;>
        simp [AIServiceManagerV1.validateConfig, hk]
    · rcases hp with rfl | rfl | rfl | rfl | rfl <;>
        simp [AIServiceManagerV1.validateConfig, ht, rangeErr, h25]

/-- Witness for C2: applying the theorem at provider "openai" with the
double-faulted configuration. -/
theorem claim_C2_witness :
    (∃ e1 e2, e1 ∈ (AIServiceManager.validateConfig "openai" doubleBadConfig).errors ∧
      e2 ∈ (AIServiceManager.validateConfig "openai" doubleBadConfig).errors ∧ e1 ≠ e2)
    ∧ ((AIServiceManager.validateConfig "openai" doubleBadConfig).valid = true ↔
        (AIServiceManager.validateConfig "openai" doubleBadConfig).errors = [])
    ∧ (∃ e1 e2, e1 ∈ (AIServiceManagerV1.validateConfig "qwen" doubleBadConfig).errors ∧
      e2 ∈ (AIServiceManagerV1.validateConfig "qwen" doubleBadConfig).errors ∧ e1 ≠ e2)
    ∧ ((AIServiceManagerV1.validateConfig "qwen" doubleBadConfig).valid = true ↔
        (AIServiceManagerV1.validateConfig "qwen" doubleBadConfig).errors = []) :=
  ⟨claim_C2.2.1 "openai" doubleBadConfig (by decide) rfl rfl,
    claim_C2.1 "openai" doubleBadConfig,
    claim_C2.2.2.2 "qwen" doubleBadConfig (by decide) rfl rfl,
    claim_C2.2.2.1 "qwen" doubleBadConfig⟩

/-- Claim C3: the OpenAI-classic `chat` retries exactly once, with the
temperature field removed, on a vendor rejection whose code is
"unsupported_value" and whose param is "temperature", returning the retry's
successful result; every other error is wrapped as `AIServiceError` with no
retry; and at most two vendor calls are ever made. -/
theorem claim_C3 :
    ∀ (vendor : OpenAIAdapter.Request → Except VendorError OpenAIAdapter.Response)
      (messages : List ChatMessage) (config : AIServiceConfig),
      (OpenAIAdapter.chat vendor messages config).2.length ≤ 2
      ∧ (∀ e resp r,
          vendor (OpenAIAdapter.buildRequest messages config false) = .error e →
          OpenAIAdapter.isUnsupportedTemperature e = true →
          vendor { OpenAIAdapter.buildRequest messages config false with temperature := none } =
            .ok resp →
          OpenAIAdapter.extractResponse resp = .ok r →
          (OpenAIAdapter.chat vendor messages config).1 = .ok r
          ∧ (OpenAIAdapter.chat vendor messages config).2 =
              [OpenAIAdapter.buildRequest messages config false,
               { OpenAIAdapter.buildRequest messages config false with temperature := none }])
      ∧ (∀ e,
          vendor (OpenAIAdapter.buildRequest messages config false) = .error e →
          OpenAIAdapter.isUnsupportedTemperature e = false →
          (OpenAIAdapter.chat vendor messages config).1 = .error (OpenAIAdapter.wrapError e)
          ∧ (OpenAIAdapter.chat vendor messages config).2 =
              [OpenAIAdapter.buildRequest messages config false]
          ∧ (OpenAIAdapter.wrapError e).name = "AIServiceError") := by
  intro vendor messages config
  refine ⟨?_, ?_, ?_⟩
  · unfold OpenAIAdapter.chat
    cases hv : vendor (OpenAIAdapter.buildRequest messages config false) with
    | ok resp => simp [hv]
    | error e =>
      cases hm : OpenAIAdapter.isUnsupportedTemperature e with
      | true =>
        cases hv2 : vendor { OpenAIAdapter.buildRequest messages config false with
            temperature := none } with
        | ok resp => simp [hv, hm, hv2]
        | error e2 => simp [hv, hm, hv2]
      | false => simp [hv, hm]
  · intro e resp r hv hm hv2 hr
    unfold OpenAIAdapter.chat
    simp [hv, hm, hv2, hr]
  · intro e hv hm
    unfold OpenAIAdapter.chat
    simp [hv, hm, OpenAIAdapter.wrapError, mkAIServiceError]

/-- Witness for C3: a vendor oracle that rejects temperature once and then
succeeds; the adapter returns the retry's result after two calls. -/
theorem claim_C3_witness :
    (OpenAIAdapter.chat retryVendor sampleMessages sampleConfig).1 = .ok retryResult
    ∧ (OpenAIAdapter.chat retryVendor sampleMessages sampleConfig).2 =
        [OpenAIAdapter.buildRequest sampleMessages sampleConfig false,
         { OpenAIAdapter.buildRequest sampleMessages sampleConfig false with temperature := none }] :=
  (claim_C3 retryVendor sampleMessages sampleConfig).2.1 unsupportedTempError
    retryResponse retryResult rfl rfl rfl rfl

/-- Claim C6: the dispatcher-level `testConnection` is a total Boolean
function (every throw site of the source is inside its `try`): it returns
`false` for an unregistered provider and for every failed probe, and it
returns `true` only when the resolved adapter's probe succeeded.  At the
adapter level, the Claude probe returns `response.ok` and converts a thrown
transport error to `false`. -/
theorem claim_C6 :
    (∀ (reg : AIServiceManager.Registry) p, List.lookup p reg = none →
        AIServiceManager.testConnection reg p = false)
    ∧ (∀ (reg : AIServiceManager.Registry) p a e, List.lookup p reg = some a →
        a.testConnectionOutcome = .error e →
        AIServiceManager.testConnection reg p = false)
    ∧ (∀ (reg : AIServiceManager.Registry) p, AIServiceManager.testConnection reg p = true →
        ∃ a, List.lookup p reg = some a ∧ a.testConnectionOutcome = .ok true)
    ∧ (∀ f, ClaudeAdapter.testConnection f = true ↔ ∃ r, f = .ok r ∧ r.ok = true) := by
  refine ⟨?_, ?_, ?_, ?_⟩
  · intro reg p h
    unfold AIServiceManager.testConnection AIServiceManager.getAdapter
    rw [h]
  · intro reg p a e hl he
    unfold AIServiceManager.testConnection AIServiceManager.getAdapter
    rw [hl]
    simp [he]
  · intro reg p h
    unfold AIServiceManager.testConnection AIServiceManager.getAdapter at h
    cases hl : List.lookup p reg with
    | none => rw [hl] at h; cases h
    | some a =>
      rw [hl] at h
      cases ho : a.testConnectionOutcome with
      | ok b =>
        simp [ho] at h
        exact ⟨a, rfl, by rw [ho, h]⟩
      | error e => simp [ho] at h
  · intro f
    constructor
    · intro h
      cases f with
      | ok r =>
        refine ⟨r, rfl, ?_⟩
        unfold ClaudeAdapter.testConnection at h
        exact h
      | error e => unfold ClaudeAdapter.testConnection at h; cases h
    · intro h
      obtain ⟨r, rfl, hr⟩ := h
      unfold ClaudeAdapter.testConnection
      exact hr

/-- Witness for C6: concrete registry and probe outcomes. -/
theorem claim_C6_witness :
    AIServiceManager.testConnection sampleRegistry "grok" = false
    ∧ AIServiceManager.testConnection [] "claude" = false
    ∧ (ClaudeAdapter.testConnection (.ok { ok := true, status := 200, dataField := none }) = true ↔
        ∃ r, (Except.ok { ok := true, status := 200, dataField := none } :
            Except VendorError ClaudeAdapter.FetchModels) = .ok r ∧ r.ok = true) :=
  ⟨claim_C6.1 sampleRegistry "grok" rfl,
    claim_C6.1 [] "claude" rfl,
    claim_C6.2.2.2 (.ok { ok := true, status := 200, dataField := none })⟩

/-- Claim C7 (amended): for an unregistered vendor id the dispatcher's
`getAdapter`, `chat`, `streamChat` and `getAvailableModels` all fail before
any adapter call, and for a registered adapter without the optional
`streamChat` member `streamChat` fails with no adapter call; however both
failures raise the one `AIServiceError` class (same `name`), distinguished
only by message, not by distinct error kinds. -/
theorem claim_C7_amended :
    (∀ (reg : AIServiceManager.Registry) p, List.lookup p reg = none →
        AIServiceManager.getAdapter reg p =
          .error (mkAIServiceError ("不支持的AI服务提供商: " ++ p) p none)
        ∧ AIServiceManager.chat reg p =
            (.error (mkAIServiceError ("不支持的AI服务提供商: " ++ p) p none), 0)
        ∧ AIServiceManager.streamChat reg p =
            (.error (mkAIServiceError ("不支持的AI服务提供商: " ++ p) p none), 0)
        ∧ AIServiceManager.getAvailableModels reg p =
            (.error (mkAIServiceError ("不支持的AI服务提供商: " ++ p) p none), 0))
    ∧ (∀ (reg : AIServiceManager.Registry) p a, List.lookup p reg = some a →
        a.hasStreamChat = false →
        AIServiceManager.streamChat reg p =
          (.error (mkAIServiceError (p ++ " does not support streaming") p none), 0))
    ∧ (∀ p q, (mkAIServiceError ("不支持的AI服务提供商: " ++ p) p none).name =
        (mkAIServiceError (q ++ " does not support streaming") q none).name) := by
  refine ⟨?_, ?_, ?_⟩
  · intro reg p h
    unfold AIServiceManager.chat AIServiceManager.streamChat
      AIServiceManager.getAvailableModels AIServiceManager.getAdapter
    rw [h]
    exact ⟨rfl, rfl, rfl, rfl⟩
  · intro reg p a hl hs
    unfold AIServiceManager.streamChat AIServiceManager.getAdapter
    rw [hl]
    simp [hs]
  · intro p q
    rfl

/-- Counterexample for C7 as stated: the unregistered-vendor failure and the
no-streaming failure carry the same error class (`name` is "AIServiceError"
for both), hence they are not two distinct error kinds. -/
theorem claim_C7_counterexample :
    AIServiceManager.getAdapter [] "grok" =
      .error (mkAIServiceError ("不支持的AI服务提供商: " ++ "grok") "grok" none)
    ∧ AIServiceManager.streamChat [("stub", stubAdapterNoStream)] "stub" =
        (.error (mkAIServiceError ("stub" ++ " does not support streaming") "stub" none), 0)
    ∧ (mkAIServiceError ("不支持的AI服务提供商: " ++ "grok") "grok" none).name =
        (mkAIServiceError ("stub" ++ " does not support streaming") "stub" none).name := by
  refine ⟨rfl, ?_, rfl⟩
  unfold AIServiceManager.streamChat AIServiceManager.getAdapter
  rfl

/-- Witness for C7: the amended theorem applied at a concrete registry. -/
theorem claim_C7_amended_witness :
    (AIServiceManager.getAdapter sampleRegistry "grok" =
      .error (mkAIServiceError ("不支持的AI服务提供商: " ++ "grok") "grok" none)
    ∧ AIServiceManager.chat sampleRegistry "grok" =
        (.error (mkAIServiceError ("不支持的AI服务提供商: " ++ "grok") "grok" none), 0)
    ∧ AIServiceManager.streamChat sampleRegistry "grok" =
        (.error (mkAIServiceError ("不支持的AI服务提供商: " ++ "grok") "grok" none), 0)
    ∧ AIServiceManager.getAvailableModels sampleRegistry "grok" =
        (.error (mkAIServiceError ("不支持的AI服务提供商: " ++ "grok") "grok" none), 0))
    ∧ AIServiceManager.streamChat sampleRegistry "stub" =
        (.error (mkAIServiceError ("stub" ++ " does not support streaming") "stub" none), 0) :=
  ⟨claim_C7_amended.1 sampleRegistry "grok" rfl,
    claim_C7_amended.2.1 sampleRegistry "stub" stubAdapterNoStream rfl rfl⟩

/-- Claim C8 (amended): the Claude and OpenAI-classic request builders omit
`top_p` / stop sequences (and, for OpenAI, send no penalty fields at all —
absent from the request type) when unset, but they do NOT omit `temperature`
and the token limit: those are always sent, with adapter-chosen defaults 0.7
and 2000 substituted when unset.  The stateful Responses builder omits every
unset optional parameter.  The same builders serve `chat` and `streamChat`
(the `st` flag). -/
theorem claim_C8_amended :
    ∀ (msgs : List ChatMessage) (cfg : AIServiceConfig) (st : Bool),
      (cfg.topP = none → (ClaudeAdapter.buildRequest msgs cfg st).top_p = none)
      ∧ (cfg.stop = none → (ClaudeAdapter.buildRequest msgs cfg st).stop_sequences = none)
      ∧ (cfg.temperature = none →
          (ClaudeAdapter.buildRequest msgs cfg st).temperature = some 0.7)
      ∧ (cfg.maxTokens = none → (ClaudeAdapter.buildRequest msgs cfg st).max_tokens = some 2000)
      ∧ (cfg.temperature = none →
          (OpenAIAdapter.buildRequest msgs cfg st).temperature = some 0.7)
      ∧ (cfg.maxTokens = none →
          (OpenAIAdapter.buildRequest msgs cfg st).max_completion_tokens = some 2000)
      ∧ (cfg.temperature = none → (OpenAIResponsesAdapter.buildRequest msgs cfg).temperature = none)
      ∧ (cfg.maxTokens = none →
          (OpenAIResponsesAdapter.buildRequest msgs cfg).max_completion_tokens = none)
      ∧ (cfg.topP = none → (OllamaAdapter.buildRequest msgs cfg st).top_p = none)
      ∧ (cfg.frequencyPenalty = none →
          (OllamaAdapter.buildRequest msgs cfg st).frequency_penalty = none)
      ∧ (cfg.temperature = none →
          (OllamaAdapter.buildRequest msgs cfg st).temperature = some 0.7) := by
  intro msgs cfg st
  refine ⟨?_, ?_, ?_, ?_, ?_, ?_, ?_, ?_, ?_, ?_, ?_⟩ <;> intro h <;>
    simp [ClaudeAdapter.buildRequest, OpenAIAdapter.buildRequest,
      OpenAIResponsesAdapter.buildRequest, OllamaAdapter.buildRequest, jsOrRat, jsOrInt, h]

/-- Counterexample for C8 as stated: with temperature and maxTokens unset,
the Claude and OpenAI-classic request bodies still carry
`temperature = 0.7` and a 2000 token limit instead of omitting them. -/
theorem claim_C8_counterexample :
    (ClaudeAdapter.buildRequest sampleMessages sampleConfig false).temperature = some 0.7
    ∧ (ClaudeAdapter.buildRequest sampleMessages sampleConfig false).temperature ≠ none
    ∧ (OpenAIAdapter.buildRequest sampleMessages sampleConfig false).temperature = some 0.7
    ∧ (OpenAIAdapter.buildRequest sampleMessages sampleConfig false).max_completion_tokens =
        some 2000
    ∧ sampleConfig.temperature = none ∧ sampleConfig.maxTokens = none := by
  refine ⟨rfl, ?_, rfl, rfl, rfl, rfl⟩
  exact Option.some_ne_none _

/-- Witness for C8: the amended theorem applied to the all-unset config. -/
theorem claim_C8_amended_witness :
    (ClaudeAdapter.buildRequest sampleMessages sampleConfig true).top_p = none
    ∧ (ClaudeAdapter.buildRequest sampleMessages sampleConfig true).temperature = some 0.7
    ∧ (OpenAIResponsesAdapter.buildRequest sampleMessages sampleConfig).temperature = none
    ∧ (OllamaAdapter.buildRequest sampleMessages sampleConfig true).temperature = some 0.7 :=
  ⟨(claim_C8_amended sampleMessages sampleConfig true).1 rfl,
    (claim_C8_amended sampleMessages sampleConfig true).2.2.1 rfl,
    (claim_C8_amended sampleMessages sampleConfig true).2.2.2.2.2.2.1 rfl,
    (claim_C8_amended sampleMessages sampleConfig true).2.2.2.2.2.2.2.2.2.2 rfl⟩

/-- Claim C9 (amended): the Claude adapter's `getAvailableModels` raises an
`AIServiceError` carrying the vendor id on every transport failure (thrown
fetch, non-2xx status); the stateful OpenAI-responses adapter instead
swallows every vendor failure and returns an empty model list. -/
theorem claim_C9_amended :
    (∀ e, ClaudeAdapter.getAvailableModels (.error e) =
        .error (mkAIServiceError (jsOrStr e.message "Claude API调用失败，无法获取模型列表")
          "claude" e.status)
        ∧ (mkAIServiceError (jsOrStr e.message "Claude API调用失败，无法获取模型列表")
            "claude" e.status).provider = "claude"
        ∧ (mkAIServiceError (jsOrStr e.message "Claude API调用失败，无法获取模型列表")
            "claude" e.status).name = "AIServiceError")
    ∧ (∀ r : ClaudeAdapter.FetchModels, r.ok = false →
        ClaudeAdapter.getAvailableModels (.ok r) =
          .error (mkAIServiceError ("HTTP error! status: " ++ toString r.status) "claude" none))
    ∧ (∀ e, OpenAIResponsesAdapter.getAvailableModels (.error e) = .ok []) := by
  refine ⟨?_, ?_, ?_⟩
  · intro e
    exact ⟨rfl, rfl, rfl⟩
  · intro r h
    unfold ClaudeAdapter.getAvailableModels
    simp [h]
  · intro e
    rfl

/-- Counterexample for C9 as stated: on an authentication failure the
stateful OpenAI-responses adapter returns a normal empty model list instead
of raising an `AIServiceError`. -/
theorem claim_C9_counterexample :
    OpenAIResponsesAdapter.getAvailableModels (.error plainVendorError) = .ok [] := rfl

/-- Witness for C9: the amended theorem applied at concrete failures. -/
theorem claim_C9_amended_witness :
    ClaudeAdapter.getAvailableModels (.error plainVendorError) =
      .error (mkAIServiceError (jsOrStr plainVendorError.message
        "Claude API调用失败，无法获取模型列表") "claude" plainVendorError.status)
    ∧ ClaudeAdapter.getAvailableModels (.ok { ok := false, status := 401, dataField := none }) =
        .error (mkAIServiceError ("HTTP error! status: " ++ toString 401) "claude" none) :=
  ⟨(claim_C9_amended.1 plainVendorError).1,
    claim_C9_amended.2.1 { ok := false, status := 401, dataField := none } rfl⟩

/-- Claim C10 (amended): the Claude, OpenAI-classic and Ollama adapters
apply defaults with the falsy JavaScript OR, so an explicit temperature 0
is sent as 0.7 and an explicit maxTokens 0 as 2000, in `chat` and
`streamChat` alike; the stateful OpenAI-responses adapter guards with
`!== undefined` and transmits the explicit 0 unchanged, so an explicit
temperature of 0 does reach that vendor. -/
theorem claim_C10_amended :
    ∀ (msgs : List ChatMessage) (cfg : AIServiceConfig) (st : Bool),
      (cfg.temperature = some 0 →
        (ClaudeAdapter.buildRequest msgs cfg st).temperature = some 0.7
        ∧ (OpenAIAdapter.buildRequest msgs cfg st).temperature = some 0.7
        ∧ (OllamaAdapter.buildRequest msgs cfg st).temperature = some 0.7
        ∧ (OpenAIResponsesAdapter.buildRequest msgs cfg).temperature = some 0)
      ∧ (cfg.maxTokens = some 0 →
        (ClaudeAdapter.buildRequest msgs cfg st).max_tokens = some 2000
        ∧ (OpenAIAdapter.buildRequest msgs cfg st).max_completion_tokens = some 2000
        ∧ (OllamaAdapter.buildRequest msgs cfg st).max_tokens = some 2000
        ∧ (OpenAIResponsesAdapter.buildRequest msgs cfg).max_completion_tokens = some 0) := by
  intro msgs cfg st
  constructor <;> intro h <;>
    refine ⟨?_, ?_, ?_, ?_⟩ <;>
      simp [ClaudeAdapter.buildRequest, OpenAIAdapter.buildRequest,
        OllamaAdapter.buildRequest, OpenAIResponsesAdapter.buildRequest, jsOrRat, jsOrInt, h]

/-- Counterexample for C10 as stated: the stateful OpenAI-responses adapter
transmits an explicitly requested temperature of exactly 0 to the vendor,
so temperature 0 is not "never transmitted". -/
theorem claim_C10_counterexample :
    (OpenAIResponsesAdapter.buildRequest sampleMessages zeroConfig).temperature = some 0
    ∧ (OpenAIResponsesAdapter.buildRequest sampleMessages zeroConfig).temperature ≠ some 0.7 := by
  refine ⟨rfl, ?_⟩
  show some (0:ℚ) ≠ some (0.7:ℚ)
  simp only [ne_eq, Option.some.injEq]
  norm_num

/-- Witness for C10: the amended theorem applied to the zero config. -/
theorem claim_C10_amended_witness :
    ((ClaudeAdapter.buildRequest sampleMessages zeroConfig false).temperature = some 0.7
    ∧ (OpenAIAdapter.buildRequest sampleMessages zeroConfig false).temperature = some 0.7
    ∧ (OllamaAdapter.buildRequest sampleMessages zeroConfig false).temperature = some 0.7
    ∧ (OpenAIResponsesAdapter.buildRequest sampleMessages zeroConfig).temperature = some 0)
    ∧ ((ClaudeAdapter.buildRequest sampleMessages zeroConfig false).max_tokens = some 2000
    ∧ (OpenAIAdapter.buildRequest sampleMessages zeroConfig false).max_completion_tokens = some 2000
    ∧ (OllamaAdapter.buildRequest sampleMessages zeroConfig false).max_tokens = some 2000
    ∧ (OpenAIResponsesAdapter.buildRequest sampleMessages zeroConfig).max_completion_tokens =
        some 0) :=
  ⟨(claim_C10_amended sampleMessages zeroConfig false).1 rfl,
    (claim_C10_amended sampleMessages zeroConfig false).2 rfl⟩

/-- Claim C5 (amended): both conversions keep system messages out of the
turn history and route a system message's content into the dedicated field,
but the deterministic tie-break differs: Claude uses the FIRST system
message (`systemMessages[0]`), while Gemini's loop overwrites the
instruction so the LAST system message wins (an empty last content yields
no instruction). -/
theorem claim_C5_amended :
    (∀ (msgs : List ChatMessage) (m : ChatMessage),
        m ∈ (ClaudeAdapter.convertMessages msgs).1 → m.role ≠ .system)
    ∧ (∀ (msgs : List ChatMessage) (m : ChatMessage),
        msgs.find? (fun x => x.role == .system) = some m →
        (ClaudeAdapter.convertMessages msgs).2 = some m.content)
    ∧ (∀ (msgs : List ChatMessage) (g : GeminiAdapter.Content),
        g ∈ (GeminiAdapter.convertMessages msgs).1 → g.role = "user" ∨ g.role = "model")
    ∧ (∀ msgs : List ChatMessage,
        (GeminiAdapter.convertMessages msgs).2 =
          match lastSysContent msgs with
          | some s => if s = "" then none else some s
          | none => none) := by
  refine ⟨?_, ?_, ?_, ?_⟩
  · intro msgs m hm
    unfold ClaudeAdapter.convertMessages at hm
    have := (List.mem_filter.mp hm).2
    simpa using this
  · intro msgs m hf
    unfold ClaudeAdapter.convertMessages
    rw [← head?_filter_eq_find?] at hf
    simp [hf]
  · intro msgs g hg
    unfold GeminiAdapter.convertMessages at hg
    rcases geminiConvertLoop_hist msgs [] "" g hg with hmem | hro
    · cases hmem
    · exact hro
  · intro msgs
    unfold GeminiAdapter.convertMessages
    simp only []
    rw [geminiConvertLoop_sys msgs [] ""]
    cases hl : lastSysContent msgs with
    | none => simp
    | some s => simp

/-- Counterexample for C5 as stated: with two system messages, the Gemini
conversion places the SECOND system message's content into the dedicated
field, not the first one, so the first-wins tie-break is false. -/
theorem claim_C5_counterexample :
    (GeminiAdapter.convertMessages twoSystemMessages).2 = some "Answer in French"
    ∧ some "Answer in French" ≠ some "Be terse"
    ∧ (ClaudeAdapter.convertMessages twoSystemMessages).2 = some "Be terse" := by
  refine ⟨?_, by decide, ?_⟩ <;> decide

/-- Witness for C5: the amended theorem applied at concrete inputs. -/
theorem claim_C5_amended_witness :
    ({ role := .user, content := "Hi" } : ChatMessage).role ≠ MessageRole.system
    ∧ (ClaudeAdapter.convertMessages sampleMessages).2 = some "Be helpful"
    ∧ (({ role := "user", parts := ["Hi"] } : GeminiAdapter.Content).role = "user"
        ∨ ({ role := "user", parts := ["Hi"] } : GeminiAdapter.Content).role = "model")
    ∧ (GeminiAdapter.convertMessages twoSystemMessages).2 =
        (match lastSysContent twoSystemMessages with
          | some s => if s = "" then none else some s
          | none => none) :=
  ⟨claim_C5_amended.1 sampleMessages { role := .user, content := "Hi" } (by decide),
    claim_C5_amended.2.1 sampleMessages { role := .system, content := "Be helpful" } (by decide),
    claim_C5_amended.2.2.1 twoSystemMessages { role := "user", parts := ["Hi"] } (by decide),
    claim_C5_amended.2.2.2 twoSystemMessages⟩

/-- Evaluation of Claude streamChat in terms of the loop body. -/
theorem claudeStreamChat_eq (trace : ClaudeAdapter.StreamTrace) (msgs : List ChatMessage)
    (config : AIServiceConfig) :
    ClaudeAdapter.streamChat trace msgs config =
      ((ClaudeAdapter.streamBody config trace.events).1,
        if (ClaudeAdapter.streamBody config trace.events).2 then none
        else trace.midStreamError.map ClaudeAdapter.wrapStreamError) := by
  unfold ClaudeAdapter.streamChat
  cases hb : (ClaudeAdapter.streamBody config trace.events).2 with
  | true => simp [hb]
  | false => cases he : trace.midStreamError <;> simp [hb, he]

/-- Evaluation of OpenAI streamChat in terms of the loop body. -/
theorem openaiStreamChat_eq (trace : OpenAIAdapter.StreamTrace) (msgs : List ChatMessage)
    (config : AIServiceConfig) :
    OpenAIAdapter.streamChat trace msgs config =
      ((OpenAIAdapter.streamBody trace.events).1,
        if (OpenAIAdapter.streamBody trace.events).2 then none
        else trace.midStreamError.map OpenAIAdapter.wrapStreamError) := by
  unfold OpenAIAdapter.streamChat
  cases hb : (OpenAIAdapter.streamBody trace.events).2 with
  | true => simp [hb]
  | false => cases he : trace.midStreamError <;> simp [hb, he]

/-- Claim C1 (amended): for the Claude and OpenAI-classic streaming loops
the chunk sequence is finite with at most one final chunk, which is last
when present; a final chunk is emitted exactly when the vendor events
contain an explicit completion marker (`message_stop`, truthy
`finish_reason`); when the marker is absent the adapter emits NO terminal
chunk, and a mid-stream transport error is raised as `AIServiceError`
instead of being converted into a final chunk. -/
theorem claim_C1_amended :
    ∀ (msgs : List ChatMessage) (config : AIServiceConfig),
      (∀ trace : ClaudeAdapter.StreamTrace,
        (ClaudeAdapter.StreamEvent.messageStop ∈ trace.events →
          (∃ cs, (ClaudeAdapter.streamChat trace msgs config).1 =
              cs ++ [{ content := "", done := true, model := config.model, provider := "claude" }]
            ∧ ∀ c ∈ cs, c.done = false)
          ∧ (ClaudeAdapter.streamChat trace msgs config).2 = none)
        ∧ (ClaudeAdapter.StreamEvent.messageStop ∉ trace.events →
          (∀ c ∈ (ClaudeAdapter.streamChat trace msgs config).1, c.done = false)
          ∧ (ClaudeAdapter.streamChat trace msgs config).2 =
              trace.midStreamError.map ClaudeAdapter.wrapStreamError))
      ∧ (∀ trace : OpenAIAdapter.StreamTrace,
        (trace.events.any OpenAIAdapter.evFinish = true →
          (∃ cs m, (OpenAIAdapter.streamChat trace msgs config).1 =
              cs ++ [{ content := "", done := true, model := m, provider := "openai" }]
            ∧ ∀ c ∈ cs, c.done = false)
          ∧ (OpenAIAdapter.streamChat trace msgs config).2 = none)
        ∧ (trace.events.any OpenAIAdapter.evFinish = false →
          (∀ c ∈ (OpenAIAdapter.streamChat trace msgs config).1, c.done = false)
          ∧ (OpenAIAdapter.streamChat trace msgs config).2 =
              trace.midStreamError.map OpenAIAdapter.wrapStreamError)) := by
  intro msgs config
  constructor
  · intro trace
    constructor
    · intro h
      obtain ⟨cs, hcs, hdone, hb⟩ := claudeStreamBody_stop config trace.events h
      rw [claudeStreamChat_eq]
      exact ⟨⟨cs, hcs, hdone⟩, by simp [hb]⟩
    · intro h
      obtain ⟨hdone, hb⟩ := claudeStreamBody_noStop config trace.events h
      rw [claudeStreamChat_eq]
      exact ⟨hdone, by simp [hb]⟩
  · intro trace
    constructor
    · intro h
      obtain ⟨cs, m, hcs, hdone, hb⟩ := openaiStreamBody_stop trace.events h
      rw [openaiStreamChat_eq]
      exact ⟨⟨cs, m, hcs, hdone⟩, by simp [hb]⟩
    · intro h
      obtain ⟨hdone, hb⟩ := openaiStreamBody_noStop trace.events h
      rw [openaiStreamChat_eq]
      exact ⟨hdone, by simp [hb]⟩

/-- Counterexample for C1 as stated: when the transport errors mid-stream,
or simply closes without a completion marker, the Claude adapter yields NO
chunk with done=true (it raises, or just ends), so the sequence does not
contain exactly one final chunk. -/
theorem claim_C1_counterexample :
    (ClaudeAdapter.streamChat claudeErrorTrace sampleMessages sampleConfig).1.countP
        (fun c => c.done) = 0
    ∧ (ClaudeAdapter.streamChat claudeErrorTrace sampleMessages sampleConfig).2 =
        some (mkAIServiceError "connection reset" "claude" none)
    ∧ (ClaudeAdapter.streamChat claudeSilentTrace sampleMessages sampleConfig).1.countP
        (fun c => c.done) = 0
    ∧ (ClaudeAdapter.streamChat claudeSilentTrace sampleMessages sampleConfig).2 = none := by
  refine ⟨?_, ?_, ?_, ?_⟩ <;> decide

/-- Witness for C1: the amended theorem applied at concrete traces. -/
theorem claim_C1_amended_witness :
    ((∃ cs, (ClaudeAdapter.streamChat claudeStopTrace sampleMessages sampleConfig).1 =
        cs ++ [{ content := "", done := true, model := sampleConfig.model, provider := "claude" }]
      ∧ ∀ c ∈ cs, c.done = false)
    ∧ (ClaudeAdapter.streamChat claudeStopTrace sampleMessages sampleConfig).2 = none)
    ∧ ((∀ c ∈ (ClaudeAdapter.streamChat claudeSilentTrace sampleMessages sampleConfig).1,
        c.done = false)
    ∧ (ClaudeAdapter.streamChat claudeSilentTrace sampleMessages sampleConfig).2 =
        claudeSilentTrace.midStreamError.map ClaudeAdapter.wrapStreamError)
    ∧ ((∃ cs m, (OpenAIAdapter.streamChat openaiStopTrace sampleMessages sampleConfig).1 =
        cs ++ [{ content := "", done := true, model := m, provider := "openai" }]
      ∧ ∀ c ∈ cs, c.done = false)
    ∧ (OpenAIAdapter.streamChat openaiStopTrace sampleMessages sampleConfig).2 = none)
    ∧ ((∀ c ∈ (OpenAIAdapter.streamChat openaiSilentTrace sampleMessages sampleConfig).1,
        c.done = false)
    ∧ (OpenAIAdapter.streamChat openaiSilentTrace sampleMessages sampleConfig).2 =
        openaiSilentTrace.midStreamError.map OpenAIAdapter.wrapStreamError) :=
  ⟨(claim_C1_amended sampleMessages sampleConfig).1 claudeStopTrace |>.1 (by decide),
    (claim_C1_amended sampleMessages sampleConfig).1 claudeSilentTrace |>.2 (by decide),
    (claim_C1_amended sampleMessages sampleConfig).2 openaiStopTrace |>.1 (by decide),
    (claim_C1_amended sampleMessages sampleConfig).2 openaiSilentTrace |>.2 (by decide)⟩

/-- Claim C4: with the transport held deterministic — the unary response
text equals the concatenation of the streamed deltas, and the event
sequence is deltas followed by one finish marker — the concatenation of the
non-final chunk texts produced by `streamChat` equals the `content` of the
`chat` result on the same messages and config; for the simulated-stream
OpenAI-responses fallback this holds because it literally replays the
`chat` result. -/
theorem claim_C4 :
    (∀ (vendor : OpenAIAdapter.Request → Except VendorError OpenAIAdapter.Response)
       (msgs : List ChatMessage) (cfg : AIServiceConfig) (trace : OpenAIAdapter.StreamTrace)
       (es : List OpenAIAdapter.StreamEvent) (finEv : OpenAIAdapter.StreamEvent)
       (resp : OpenAIAdapter.Response) (ch : OpenAIAdapter.Choice) (T : String),
       trace.events = es ++ [finEv] →
       es.any OpenAIAdapter.evFinish = false →
       OpenAIAdapter.evFinish finEv = true →
       vendor (OpenAIAdapter.buildRequest msgs cfg false) = .ok resp →
       resp.choices.head? = some ch →
       ch.messageContent = some T →
       T ≠ "" →
       T = joinStrings ((es ++ [finEv]).map OpenAIAdapter.evDelta) →
       (OpenAIAdapter.chat vendor msgs cfg).1 =
          .ok { content := T, model := resp.model, provider := "openai",
                usage := resp.usage.map fun u => ⟨u.1, u.2.1, u.2.2⟩, responseId := none }
       ∧ nonFinalText (OpenAIAdapter.streamChat trace msgs cfg).1 = T)
    ∧ (∀ (outcome : Except AIServiceError AIResponse) (r : AIResponse), outcome = .ok r →
        nonFinalText (OpenAIResponsesFallbackAdapter.streamChat outcome).1 = r.content) := by
  constructor
  · intro vendor msgs cfg trace es finEv resp ch T htr hes hfin hv hch hct hT hdet
    constructor
    · unfold OpenAIAdapter.chat
      simp only [hv]
      unfold OpenAIAdapter.extractResponse
      rw [hch]
      simp [hct, hT]
    · rw [openaiStreamChat_eq, htr]
      obtain ⟨happ, _⟩ := openaiStreamBody_append_noFinish es [finEv] hes
      obtain ⟨hfin1, _⟩ := openaiStreamBody_finishEvent finEv hfin
      rw [happ, nonFinalText_append, openaiNonFinal_noFinish es hes, hfin1, hdet,
        List.map_append, joinStrings_append]
      simp [joinStrings, String.append_empty]
  · intro outcome r h
    subst h
    unfold OpenAIResponsesFallbackAdapter.streamChat
    simp [nonFinalText, List.filter_cons, joinStrings, String.append_empty]

/-- Witness for C4: a concrete deterministic transport where the streamed
deltas concatenate to the unary answer. -/
theorem claim_C4_witness :
    ((OpenAIAdapter.chat agreeingVendor sampleMessages sampleConfig).1 =
      .ok { content := "Hi there", model := "gpt-4o", provider := "openai",
            usage := none, responseId := none }
    ∧ nonFinalText (OpenAIAdapter.streamChat openaiStopTrace sampleMessages sampleConfig).1 =
        "Hi there")
    ∧ nonFinalText (OpenAIResponsesFallbackAdapter.streamChat (.ok retryResult)).1 =
        retryResult.content :=
  ⟨claim_C4.1 agreeingVendor sampleMessages sampleConfig openaiStopTrace
      [{ choices := [{ deltaContent := some "Hi ", finishReason := none }], model := "gpt-4o" }]
      { choices := [{ deltaContent := some "there", finishReason := some "stop" }],
        model := "gpt-4o" }
      { choices := [{ messageContent := some "Hi there" }], model := "gpt-4o", usage := none }
      { messageContent := some "Hi there" } "Hi there"
      rfl (by decide) (by decide) rfl rfl rfl (by decide) (by decide),
    claim_C4.2 (.ok retryResult) retryResult rfl⟩
